import Mathlib

/-!
Verification of the ConfigKit core derivation engine.

Shallow embedding of the repository's pure logic modules:
`src/logic/guardrailEngine.js`, `src/logic/roleBuilder.js`,
`src/logic/skillSelector.js`, `src/logic/configAssembler.js` and
`src/logic/decisionTree.js`.

Answer values are dynamically typed in the source (enum strings, free
text, lists of strings, or absent), so answers are embedded as a record
of `Value`s.  JavaScript operations that can raise a `TypeError` at
runtime (calling `.trim()` / `.toLowerCase()` on a non-string) are
embedded in the `Except String` monad; everything else is total, exactly
as in the source where every table lookup carries a `?? fallback`.
-/

/-- A JavaScript answer value: an enum / free-text string, a list of
strings, a number, a boolean, or absent (`undefined`/`null`). -/
inductive Value where
  | str (s : String)
  | arr (l : List String)
  | num (n : Int)
  | bool (b : Bool)
  | undef
deriving DecidableEq, Repr

/-- JavaScript truthiness of a `Value`: `undefined`, `""`, `0` and
`false` are falsy; every other value (including `[]`) is truthy. -/
def jsTruthy : Value → Bool
  | .str s  => !(s == "")
  | .arr _  => true
  | .num n  => !(n == 0)
  | .bool b => b
  | .undef  => false

/-- JavaScript property-key coercion: when a `Value` is used to index an
object literal (`TABLE[answers.x]`), it is coerced to a string via
`toString` (`undefined → "undefined"`, arrays join with `","`). -/
def jsKeyStr : Value → String
  | .str s  => s
  | .arr l  => String.intercalate "," l
  | .num n  => toString n
  | .bool b => toString b
  | .undef  => "undefined"

/-- The answer keys read by the core (the questionnaire's answers map).
Absent answers default to `undefined`. -/
structure Answers where
  projectType        : Value := .undef
  stackApproach      : Value := .undef
  stackTech          : Value := .undef
  hasAuth            : Value := .undef
  storesData         : Value := .undef
  hasPayments        : Value := .undef
  hasSensitiveData   : Value := .undef
  projectDescription : Value := .undef
  deployment         : Value := .undef
  llmTarget          : Value := .undef
deriving DecidableEq, Repr

/-! ## guardrailEngine.js -/

/-- `TIER_INSTRUCTIONS` — the four fixed per-tier instruction buckets. -/
def TIER_INSTRUCTIONS : List (List String) :=
  [ [ "Never hardcode credentials, API keys, tokens, or secrets anywhere in source code",
      "Store all configuration and secrets in environment variables; document required vars in .env.example",
      "Implement proper error handling on every async operation — no silent failures or swallowed exceptions",
      "Never log sensitive data (tokens, passwords, personal info) to the console or log files" ],
    [ "Validate and sanitise all user-supplied input before processing or persisting it",
      "Never store sensitive data in localStorage, sessionStorage, or client-side cookies without encryption",
      "Enforce HTTPS for all network communication; reject plain HTTP in production",
      "Apply basic rate limiting to all public-facing API endpoints" ],
    [ "Use httpOnly, Secure, SameSite cookies for session tokens — never expose tokens to JavaScript",
      "Implement token rotation and short expiry windows; handle refresh token revocation",
      "Define an explicit CORS policy; never use wildcard (*) origins in production",
      "Apply parameterised queries or an ORM throughout — never concatenate user input into SQL",
      "Escape all output rendered to HTML to prevent XSS; use a Content Security Policy header" ],
    [ "Encrypt sensitive fields at rest (use AES-256 or equivalent); never store plaintext PII or payment data",
      "Implement audit logging for all data access and mutations to sensitive records",
      "Apply principle of least privilege to all database roles and service accounts",
      "Never log, cache, or transmit raw PII, payment card data, or health records",
      "Enforce strict secret rotation practices with documented rotation schedules" ] ]

def TIER_LABELS : List String := ["BASELINE", "ELEVATED", "HARDENED", "MAXIMUM"]

def TIER_COLORS : List String := ["comment", "yellow", "orange", "red"]

/-- `countSecurityYes` — how many of the four Layer 3 flags are
strictly equal to the string `"yes"`. -/
def countSecurityYes (a : Answers) : Nat :=
  ([a.hasAuth, a.storesData, a.hasPayments, a.hasSensitiveData].filter
    (fun v => decide (v = Value.str "yes"))).length

/-- `determineTier` — the numeric guardrail tier (the source computes
`yesCount` up front and then short-circuits on the payments / sensitive
data escalation; early `return`s become nested `if`s here). -/
def determineTier (a : Answers) : Nat :=
  if a.hasPayments = Value.str "yes" ∨ a.hasSensitiveData = Value.str "yes" then 3
  else if 2 ≤ countSecurityYes a then 2
  else if 1 ≤ countSecurityYes a then 1
  else 0

/-- The result object of `determineGuardrails`. -/
structure GuardrailResult where
  tier         : Nat
  label        : String
  color        : String
  instructions : List String
  byTier       : List (List String)
  yesCount     : Nat
deriving DecidableEq, Repr

/-- `determineGuardrails` — the full guardrail result
(`TIER_INSTRUCTIONS.slice(0, tier + 1).flat()` is `take (tier+1)` then
`flatten`; the array index `TIER_LABELS[tier]` is in bounds for every
reachable tier, modelled with `getD`). -/
def determineGuardrails (a : Answers) : GuardrailResult :=
  { tier         := determineTier a
    label        := TIER_LABELS.getD (determineTier a) "undefined"
    color        := TIER_COLORS.getD (determineTier a) "undefined"
    instructions := (TIER_INSTRUCTIONS.take (determineTier a + 1)).flatten
    byTier       := TIER_INSTRUCTIONS.take (determineTier a + 1)
    yesCount     := countSecurityYes a }

/-! ## roleBuilder.js -/

/-- `BASE_ROLES` — base role by project type. -/
def BASE_ROLES : String → Option String
  | "web-app"           => some "Senior Full-Stack Engineer"
  | "cli-tool"          => some "Senior Backend Engineer and Systems Developer"
  | "api-backend"       => some "Senior Backend Engineer and API Architect"
  | "data-pipeline"     => some "Senior Data Engineer and Pipeline Architect"
  | "discord-slack-bot" => some "Senior Backend Engineer and Bot Developer"
  | "mobile-app"        => some "Senior Mobile Engineer"
  | "other"             => some "Senior Software Engineer"
  | _                   => none

/-- `STACK_LABELS` — stack id to human-readable label. -/
def STACK_LABELS : String → Option String
  | "react"    => some "React"
  | "nextjs"   => some "Next.js"
  | "vue"      => some "Vue"
  | "svelte"   => some "Svelte"
  | "nodejs"   => some "Node.js"
  | "python"   => some "Python"
  | "go"       => some "Go"
  | "java"     => some "Java"
  | "postgres" => some "PostgreSQL"
  | "mysql"    => some "MySQL"
  | "mongodb"  => some "MongoDB"
  | "redis"    => some "Redis"
  | "docker"   => some "Docker"
  | "stripe"   => some "Stripe"
  | "supabase" => some "Supabase"
  | "prisma"   => some "Prisma ORM"
  | _          => none

/-- `RECOMMENDED_STACKS` — curated stacks used when
`stackApproach == "recommend"`. -/
def RECOMMENDED_STACKS : String → Option (List String)
  | "web-app"           => some ["react", "nextjs", "postgres", "prisma"]
  | "cli-tool"          => some ["nodejs", "python"]
  | "api-backend"       => some ["nodejs", "postgres"]
  | "data-pipeline"     => some ["python", "postgres"]
  | "discord-slack-bot" => some ["nodejs"]
  | "mobile-app"        => some ["react"]
  | "other"             => some ["nodejs"]
  | _                   => none

/-- `buildSecuritySpecs` — the specialization phrases pushed for each
`"yes"` flag (auth, payments, sensitive data), in source order. -/
def buildSecuritySpecs (a : Answers) : List String :=
  (if a.hasAuth = Value.str "yes"
     then ["secure authentication and session management"] else []) ++
  (if a.hasPayments = Value.str "yes"
     then ["PCI-DSS-aware payment integration patterns"] else []) ++
  (if a.hasSensitiveData = Value.str "yes"
     then ["sensitive data handling and privacy-first architecture"] else [])

/-- `resolveStack` — the effective stack tech array. -/
def resolveStack (a : Answers) : List String :=
  if a.stackApproach = Value.str "recommend" then
    (RECOMMENDED_STACKS (jsKeyStr a.projectType)).getD ["nodejs"]
  else
    match a.stackTech with
    | .arr l => l
    | _      => []

/-- `joinNatural` — comma join with `and` before the last item. -/
def joinNatural : List String → String
  | []       => ""
  | [x]      => x
  | [x, y]   => x ++ " and " ++ y
  | x :: xs  =>
      String.intercalate ", " ((x :: xs).dropLast) ++ ", and " ++
        ((x :: xs).getLast?.getD "")

/-- `buildRole` — the full role sentence.  The source's
`stack.map(t => STACK_LABELS[t]).filter(Boolean)` is `filterMap` (every
label in the table is a non-empty string, so `filter(Boolean)` drops
exactly the unmapped ids).  `answers.projectDescription?.trim()` only
short-circuits on `undefined`; calling `.trim()` on a non-string value
raises a `TypeError`. -/
def buildRole (a : Answers) : Except String String :=
  let baseRole := (BASE_ROLES (jsKeyStr a.projectType)).getD "Senior Software Engineer"
  let stackSpecs := (resolveStack a).filterMap STACK_LABELS
  let secSpecs := buildSecuritySpecs a
  let parts :=
    ["You are a " ++ baseRole] ++
    (if stackSpecs ≠ [] then ["specializing in " ++ joinNatural stackSpecs] else []) ++
    (if secSpecs ≠ [] then ["with deep expertise in " ++ joinNatural secSpecs] else [])
  let role := String.intercalate ", " parts ++ "."
  match a.projectDescription with
  | .undef => .ok role
  | .str s =>
      if s.trim ≠ "" then .ok (role ++ "\n\n**Project:** " ++ s.trim) else .ok role
  | _ => .error "TypeError: answers.projectDescription.trim is not a function"

/-- The object returned by `buildRoleComponents`. -/
structure RoleComponents where
  baseRole   : String
  stackSpecs : List String
  secSpecs   : List String
  full       : String
deriving DecidableEq, Repr

/-- `buildRoleComponents`. -/
def buildRoleComponents (a : Answers) : Except String RoleComponents :=
  match buildRole a with
  | .error e => .error e
  | .ok full =>
      .ok { baseRole   := (BASE_ROLES (jsKeyStr a.projectType)).getD "Senior Software Engineer"
            stackSpecs := (resolveStack a).filterMap STACK_LABELS
            secSpecs   := buildSecuritySpecs a
            full       := full }

/-! ## skillSelector.js -/

/-- `PROJECT_TYPE_SKILLS` — track 1, deterministic by project type. -/
def PROJECT_TYPE_SKILLS : String → Option (List String)
  | "web-app"           => some ["building-web-apps", "structuring-components", "integrating-apis"]
  | "cli-tool"          => some ["building-cli-tools", "handling-io-streams", "error-handling-patterns"]
  | "api-backend"       => some ["designing-rest-apis", "request-validation", "api-error-handling"]
  | "data-pipeline"     => some ["building-data-pipelines", "transformation-logic", "idempotency-patterns"]
  | "discord-slack-bot" => some ["building-cli-tools", "handling-io-streams", "error-handling-patterns"]
  | "mobile-app"        => some ["building-web-apps", "structuring-components", "integrating-apis"]
  | "other"             => some ["error-handling-patterns", "integrating-apis"]
  | _                   => none

/-- `STACK_SKILLS` — track 2, conditional by stack technology. -/
def STACK_SKILLS : String → Option (List String)
  | "react"    => some ["managing-react-state", "structuring-react-components"]
  | "nextjs"   => some ["nextjs-routing-patterns", "ssr-and-data-fetching"]
  | "vue"      => some ["managing-vue-state", "structuring-vue-components"]
  | "svelte"   => some ["svelte-component-patterns"]
  | "nodejs"   => some ["nodejs-async-patterns", "express-middleware"]
  | "python"   => some ["python-project-structure", "dependency-management"]
  | "go"       => some ["go-project-structure", "go-concurrency-patterns"]
  | "java"     => some ["java-project-structure", "spring-patterns"]
  | "postgres" => some ["database-query-patterns", "migration-management"]
  | "mysql"    => some ["database-query-patterns", "migration-management"]
  | "mongodb"  => some ["mongodb-schema-patterns", "aggregation-pipeline"]
  | "redis"    => some ["redis-caching-patterns"]
  | "docker"   => some ["containerisation-patterns"]
  | "stripe"   => some ["stripe-integration-patterns"]
  | "supabase" => some ["supabase-patterns"]
  | "prisma"   => some ["prisma-schema-patterns"]
  | _          => none

/-- `DEPLOYMENT_SKILLS` — track 4 (deployment target). -/
def DEPLOYMENT_SKILLS : String → Option (List String)
  | "vercel"     => some ["deploying-to-vercel"]
  | "aws"        => some ["deploying-to-aws"]
  | "gcp"        => some ["deploying-to-gcp"]
  | "local-only" => some []
  | "not-sure"   => some []
  | _            => none

/-- One entry of `SKILL_METADATA`. -/
structure SkillMeta where
  label  : String
  track  : String
  accent : String
deriving DecidableEq, Repr

/-- `SKILL_METADATA` — per-skill display metadata (used here for the
track grouping in `selectSkillsByTrack`). -/
def SKILL_METADATA : String → Option SkillMeta
  | "building-web-apps"            => some ⟨"Building Web Apps", "core", "cyan"⟩
  | "structuring-components"       => some ⟨"Structuring Components", "core", "cyan"⟩
  | "integrating-apis"             => some ⟨"Integrating APIs", "core", "cyan"⟩
  | "building-cli-tools"           => some ⟨"Building CLI Tools", "core", "green"⟩
  | "handling-io-streams"          => some ⟨"Handling IO Streams", "core", "green"⟩
  | "error-handling-patterns"      => some ⟨"Error Handling", "core", "green"⟩
  | "designing-rest-apis"          => some ⟨"Designing REST APIs", "core", "purple"⟩
  | "request-validation"           => some ⟨"Request Validation", "core", "purple"⟩
  | "api-error-handling"           => some ⟨"API Error Handling", "core", "purple"⟩
  | "building-data-pipelines"      => some ⟨"Building Data Pipelines", "core", "yellow"⟩
  | "transformation-logic"         => some ⟨"Transformation Logic", "core", "yellow"⟩
  | "idempotency-patterns"         => some ⟨"Idempotency Patterns", "core", "yellow"⟩
  | "managing-react-state"         => some ⟨"React State", "stack", "cyan"⟩
  | "structuring-react-components" => some ⟨"React Components", "stack", "cyan"⟩
  | "nextjs-routing-patterns"      => some ⟨"Next.js Routing", "stack", "fg"⟩
  | "ssr-and-data-fetching"        => some ⟨"SSR & Data Fetching", "stack", "fg"⟩
  | "managing-vue-state"           => some ⟨"Vue State", "stack", "green"⟩
  | "structuring-vue-components"   => some ⟨"Vue Components", "stack", "green"⟩
  | "svelte-component-patterns"    => some ⟨"Svelte Patterns", "stack", "orange"⟩
  | "nodejs-async-patterns"        => some ⟨"Node.js Async", "stack", "green"⟩
  | "express-middleware"           => some ⟨"Express Middleware", "stack", "green"⟩
  | "python-project-structure"     => some ⟨"Python Structure", "stack", "yellow"⟩
  | "dependency-management"        => some ⟨"Dependency Management", "stack", "yellow"⟩
  | "go-project-structure"         => some ⟨"Go Structure", "stack", "cyan"⟩
  | "go-concurrency-patterns"      => some ⟨"Go Concurrency", "stack", "cyan"⟩
  | "java-project-structure"       => some ⟨"Java Structure", "stack", "orange"⟩
  | "spring-patterns"              => some ⟨"Spring Patterns", "stack", "orange"⟩
  | "database-query-patterns"      => some ⟨"Query Patterns", "stack", "purple"⟩
  | "migration-management"         => some ⟨"DB Migrations", "stack", "purple"⟩
  | "mongodb-schema-patterns"      => some ⟨"MongoDB Schemas", "stack", "green"⟩
  | "aggregation-pipeline"         => some ⟨"Aggregation Pipeline", "stack", "green"⟩
  | "redis-caching-patterns"       => some ⟨"Redis Caching", "stack", "red"⟩
  | "prisma-schema-patterns"       => some ⟨"Prisma Schema", "stack", "pink"⟩
  | "supabase-patterns"            => some ⟨"Supabase", "stack", "green"⟩
  | "containerisation-patterns"    => some ⟨"Containerisation", "stack", "cyan"⟩
  | "stripe-integration-patterns"  => some ⟨"Stripe Integration", "stack", "purple"⟩
  | "validating-user-input"        => some ⟨"Input Validation", "guardrail", "yellow"⟩
  | "implementing-auth-patterns"   => some ⟨"Auth Patterns", "guardrail", "orange"⟩
  | "managing-cors-policy"         => some ⟨"CORS Policy", "guardrail", "orange"⟩
  | "managing-secrets-and-env"     => some ⟨"Secrets & Env", "guardrail", "red"⟩
  | "handling-payment-security"    => some ⟨"Payment Security", "guardrail", "red"⟩
  | "data-encryption-patterns"     => some ⟨"Data Encryption", "guardrail", "red"⟩
  | "deploying-to-vercel"          => some ⟨"Deploy → Vercel", "deployment", "fg"⟩
  | "deploying-to-aws"             => some ⟨"Deploy → AWS", "deployment", "orange"⟩
  | "deploying-to-gcp"             => some ⟨"Deploy → GCP", "deployment", "cyan"⟩
  | _                              => none

/-- `DESCRIPTION_KEYWORDS` — keyword table for free-text inference. -/
def DESCRIPTION_KEYWORDS : List (List String × String) :=
  [ (["payment", "stripe", "checkout", "billing", "subscription", "purchase"], "stripe-integration-patterns"),
    (["cache", "caching", "redis"], "redis-caching-patterns"),
    (["supabase"], "supabase-patterns"),
    (["prisma", " orm"], "prisma-schema-patterns"),
    (["docker", "container", "kubernetes", "k8s"], "containerisation-patterns"),
    (["auth", "login", "jwt", "oauth", "sso", "sign in", "sign up"], "implementing-auth-patterns"),
    (["real-time", "realtime", "live update", "websocket"], "redis-caching-patterns"),
    (["secret", "api key", "credential", ".env"], "managing-secrets-and-env"),
    (["encrypt", "encryption", "at rest"], "data-encryption-patterns"),
    (["mongodb", "mongo"], "mongodb-schema-patterns") ]

/-- Helper for `strContains`: does `needle` occur in the character
list? -/
def strContainsAux (needle : List Char) : List Char → Bool
  | []        => needle.isEmpty
  | c :: rest => needle.isPrefixOf (c :: rest) || strContainsAux needle rest

/-- JavaScript `haystack.includes(needle)` — substring containment. -/
def strContains (haystack needle : String) : Bool :=
  strContainsAux needle.toList haystack.toList

/-- `selectFromDescription` — keyword-driven skill injection from the
free-text description.  `if (!description) return []` handles falsy
values; on a truthy non-string, `description.toLowerCase()` raises. -/
def selectFromDescription (description : Value) : Except String (List String) :=
  if jsTruthy description = false then .ok []
  else
    match description with
    | .str s =>
        let lower := s.toLower
        .ok (DESCRIPTION_KEYWORDS.foldl
          (fun skills entry =>
            if entry.1.any (fun kw => strContains lower kw) then skills ++ [entry.2]
            else skills) [])
    | _ => .error "TypeError: description.toLowerCase is not a function"

/-- The `add` closure of `selectSkills`: append unless already present
(the source's `seen` set always holds exactly the members of the
accumulated `skills` array). -/
def addSkill (skills : List String) (name : String) : List String :=
  if name ∈ skills then skills else skills ++ [name]

/-- Sequentially `add` every name of a list. -/
def addSkills (skills : List String) (names : List String) : List String :=
  names.foldl addSkill skills

/-- `['web-app', 'api-backend', 'mobile-app'].includes(answers.projectType)`
— strict (SameValueZero) membership, so only string values can match. -/
def webFacingIncludes : Value → Bool
  | .str s => ["web-app", "api-backend", "mobile-app"].contains s
  | _      => false

/-- Track 3 of `selectSkills`: the guardrail skills pushed for the given
tier and flags, in the order the source `add`s them. -/
def guardrailSkills (a : Answers) (tier : Nat) : List String :=
  (if 1 ≤ tier then ["validating-user-input"] else []) ++
  (if 2 ≤ tier then
      (if a.hasAuth = Value.str "yes" then ["implementing-auth-patterns"] else []) ++
      (if webFacingIncludes a.projectType then ["managing-cors-policy"] else [])
    else []) ++
  (if 3 ≤ tier then
      ["managing-secrets-and-env"] ++
      (if a.hasPayments = Value.str "yes" then ["handling-payment-security"] else []) ++
      (if a.hasSensitiveData = Value.str "yes" then ["data-encryption-patterns"] else [])
    else [])

/-- `selectSkills` — ordered, deduplicated skill list over the five
tracks.  The description scan is hoisted into the match (it is pure, and
its exception is the only one in the function). -/
def selectSkills (a : Answers) (tier : Nat) : Except String (List String) :=
  let s1 := addSkills [] ((PROJECT_TYPE_SKILLS (jsKeyStr a.projectType)).getD [])
  let s2 := (resolveStack a).foldl
    (fun acc tech => addSkills acc ((STACK_SKILLS tech).getD [])) s1
  let s3 := addSkills s2 (guardrailSkills a tier)
  match selectFromDescription a.projectDescription with
  | .error e => .error e
  | .ok descSkills =>
      let s4 := addSkills s3 descSkills
      .ok (addSkills s4 ((DEPLOYMENT_SKILLS (jsKeyStr a.deployment)).getD []))

/-- The group object built by `selectSkillsByTrack` (every track in
`SKILL_METADATA` is one of these four; unmapped ids default to
`core`). -/
structure SkillGroups where
  core       : List String
  stack      : List String
  guardrail  : List String
  deployment : List String
deriving DecidableEq, Repr

/-- `SKILL_METADATA[name]?.track ?? 'core'`. -/
def trackOf (name : String) : String :=
  ((SKILL_METADATA name).map SkillMeta.track).getD "core"

/-- The reduce step of `selectSkillsByTrack`: push each name onto its
track group. -/
def groupByTrack (all : List String) : SkillGroups :=
  all.foldl
    (fun g name =>
      match trackOf name with
      | "stack"      => { g with stack := g.stack ++ [name] }
      | "guardrail"  => { g with guardrail := g.guardrail ++ [name] }
      | "deployment" => { g with deployment := g.deployment ++ [name] }
      | _            => { g with core := g.core ++ [name] })
    ⟨[], [], [], []⟩

/-- `selectSkillsByTrack` — the flat selection grouped by track. -/
def selectSkillsByTrack (a : Answers) (tier : Nat) : Except String SkillGroups :=
  match selectSkills a tier with
  | .error e => .error e
  | .ok all  => .ok (groupByTrack all)

/-! ## configAssembler.js -/

/-- `PROJECT_TYPE_LABELS`. -/
def PROJECT_TYPE_LABELS : String → Option String
  | "web-app"           => some "Web Application"
  | "cli-tool"          => some "CLI Tool"
  | "api-backend"       => some "API / Backend Service"
  | "data-pipeline"     => some "Data Pipeline"
  | "discord-slack-bot" => some "Bot (Discord / Slack)"
  | "mobile-app"        => some "Mobile Application"
  | "other"             => some "Software Project"
  | _                   => none

/-- `DEPLOYMENT_LABELS`. -/
def DEPLOYMENT_LABELS : String → Option String
  | "vercel"     => some "Vercel"
  | "aws"        => some "AWS"
  | "gcp"        => some "GCP"
  | "local-only" => some "Local only (not deployed)"
  | "not-sure"   => some "Deployment target TBD"
  | _            => none

/-- `buildScaffoldStep(type, stack, deployment)` — step 1 of the build
sequence (the `deployment` argument is passed but unused in the source
too). -/
def buildScaffoldStep (type : Value) (stack : List String) (deployment : Value) : String :=
  let _ := deployment
  let hasReact  := stack.contains "react"
  let hasNextjs := stack.contains "nextjs"
  let hasPython := stack.contains "python"
  let hasNode   := stack.contains "nodejs"
  let hasGo     := stack.contains "go"
  if type = Value.str "web-app" then
    if hasNextjs then "Scaffold the project with `npx create-next-app@latest` using the App Router; configure TypeScript, ESLint, and Tailwind at setup"
    else if hasReact then "Scaffold the project with `npm create vite@latest` (React + TypeScript template); set up ESLint, Prettier, and path aliases immediately"
    else "Scaffold the frontend project; configure the build tool, linter, and code formatter before writing any feature code"
  else if type = Value.str "api-backend" then
    if hasNode then "Initialise the Node.js project (`npm init`); install Express/Fastify, set up TypeScript, and configure the project structure (routes/, controllers/, services/, middleware/)"
    else if hasPython then "Create a Python virtual environment; install FastAPI/Flask with uvicorn; set up pyproject.toml and the package structure (api/, services/, models/)"
    else if hasGo then "Initialise the Go module (`go mod init`); create the cmd/ and internal/ directory structure; set up the main entry point and dependency injection wiring"
    else "Scaffold the API project; establish the directory structure and dependency management before any route implementation"
  else if type = Value.str "cli-tool" then
    if hasNode then "Initialise the Node.js project; install commander or yargs; set up the bin/ entry point and src/ module structure"
    else if hasPython then "Set up the Python project with pyproject.toml; install Click or Typer; configure the package entry point and src/ layout"
    else "Scaffold the CLI project; set up the build system and entry point configuration"
  else if type = Value.str "data-pipeline" then
    if hasPython then "Set up the Python project with pyproject.toml; install pipeline dependencies (pandas, SQLAlchemy, etc.); create the pipeline/, transformers/, and connectors/ directory structure"
    else "Scaffold the data pipeline project; set up the runtime, dependency management, and stage directory structure"
  else if type = Value.str "discord-slack-bot" then
    if hasNode then "Initialise the Node.js project; install the bot SDK (discord.js / @slack/bolt); set up the commands/, events/, and middleware/ directory structure"
    else "Scaffold the bot project; install the platform SDK and set up the event handler structure"
  else if type = Value.str "mobile-app" then
    "Scaffold the project with the appropriate CLI (Expo, React Native CLI, or Flutter); configure the development environment and emulator targets"
  else
    "Scaffold the project; configure the build system, linter, and directory structure before writing any feature code"

/-- `buildStructureStep(type, stack)` — step 2. -/
def buildStructureStep (type : Value) (stack : List String) : String :=
  let hasReact := stack.contains "react" || stack.contains "nextjs"
  if type = Value.str "web-app" ∧ hasReact then
    "Build the design system foundation first: global CSS variables/tokens, base layout components (Navbar, Footer, Page), and the reusable UI primitive components (Button, Card, Input) before any feature pages"
  else if type = Value.str "api-backend" then
    "Define the data models and API contract (OpenAPI spec or TypeScript interfaces) before implementing any routes; this contract is the source of truth for all subsequent work"
  else if type = Value.str "data-pipeline" then
    "Define the source and target schemas as typed interfaces/dataclasses before implementing any transformation logic; document the expected data shape at each pipeline stage"
  else
    "Define the core data models and module boundaries before implementing any features; establish naming conventions and file organisation patterns the whole codebase will follow"

/-- `buildDataLayerStep(answers, stack)` — step 3 (the `answers`
argument is passed but unused in the source too). -/
def buildDataLayerStep (a : Answers) (stack : List String) : String :=
  let _ := a
  let hasPrisma   := stack.contains "prisma"
  let hasSupabase := stack.contains "supabase"
  let hasMongo    := stack.contains "mongodb"
  if hasPrisma then "Define the Prisma schema (prisma/schema.prisma) with all models, relations, and indexes; run `prisma migrate dev` to create the initial migration; implement the singleton Prisma client module"
  else if hasSupabase then "Set up the Supabase project; enable Row Level Security on every table immediately; define RLS policies for each operation (SELECT, INSERT, UPDATE, DELETE) before writing any queries"
  else if hasMongo then "Define Mongoose schemas with validation rules and indexes for every collection; create a database connection singleton; add indexes for all query fields before any data operations"
  else "Set up the database connection and ORM; define the initial schema migration; verify the connection and run the first migration before building any data access logic"

/-- `buildMiddleSteps(type, answers, stack)` — the variable-length
middle of the sequence: project-type blocks, then the auth step, then
the payments step. -/
def buildMiddleSteps (type : Value) (a : Answers) (stack : List String) : List String :=
  let hasReact  := stack.contains "react" || stack.contains "nextjs"
  let hasNextjs := stack.contains "nextjs"
  (if type = Value.str "web-app" then
      (if hasNextjs then
         [ "Build the route structure with App Router layouts; implement loading.jsx and error.jsx for every data-fetching route before adding content",
           "Build each page as a Server Component by default; only add \"use client\" to components that require interactivity or browser APIs" ]
       else if hasReact then
         [ "Set up the router and implement the page shell components with placeholder content; verify navigation works before building page content",
           "Implement the data fetching layer (service modules or React Query); connect to real data before polishing UI" ]
       else []) ++
      ["Build all user-facing features; implement loading states, error states, and empty states for every async operation"]
    else []) ++
  (if type = Value.str "api-backend" then
      [ "Implement the route structure with placeholder handlers; verify the server starts and all routes respond with 200 before adding logic",
        "Build each feature from the data layer up: repository → service → controller; test each layer independently",
        "Implement request validation middleware (Zod/Joi/Pydantic) before wiring any handler to real business logic" ]
    else []) ++
  (if type = Value.str "data-pipeline" then
      [ "Build and test each pipeline stage independently with a small sample dataset before chaining them",
        "Implement idempotency checks and checkpointing; running the pipeline twice must produce the same result",
        "Add structured logging and metrics (records processed, failed, duration) to every stage" ]
    else []) ++
  (if type = Value.str "cli-tool" then
      [ "Implement the command surface (argument parsing, help text, --version) before any business logic",
        "Build the core logic as pure, testable functions; connect them to the CLI layer only after unit tests pass" ]
    else []) ++
  (if type = Value.str "discord-slack-bot" then
      [ "Register commands and verify the bot connects and responds to a basic ping before implementing any handlers",
        "Implement each command handler in isolation; test with the bot in a private test server channel" ]
    else []) ++
  (if a.hasAuth = Value.str "yes" then
      ["Implement the authentication flow (registration, login, session management) and route protection middleware before building any authenticated features"]
    else []) ++
  (if a.hasPayments = Value.str "yes" then
      ["Integrate the payment provider in test mode first; implement and test the complete payment flow (create session → confirm → webhook → fulfil) end-to-end before writing any UI for it"]
    else [])

/-- `buildSecurityStep(answers, tier)` — the conditionally composed
security-hardening sentence. -/
def buildSecurityStep (a : Answers) (tier : Nat) : String :=
  let items :=
    (if 1 ≤ tier then ["input validation on all user-facing fields"] else []) ++
    (if a.hasAuth = Value.str "yes" then ["auth middleware protecting all authenticated routes"] else []) ++
    (if 2 ≤ tier then ["CORS policy configuration and security headers (Helmet/equivalents)"] else []) ++
    (if 3 ≤ tier then ["secrets audit (no hardcoded values), encryption for sensitive fields"] else [])
  "Security hardening pass: verify " ++ String.intercalate ", " items ++
    "; run a dependency audit before deploying"

/-- The fixed testing step, always appended. -/
def testingStep : String :=
  "Write unit tests for all business logic and integration tests for external boundaries before marking any feature complete"

/-- `buildDeployStep(deployment, stack)` — content branches on the
deployment target (the source's `hasNode`/`hasPython` locals are unused
there). -/
def buildDeployStep (deployment : Value) (stack : List String) : String :=
  let _ := stack
  if deployment = Value.str "vercel" then "Connect the repository to Vercel; configure environment variables in the Vercel dashboard; verify the Preview deployment for the main branch before enabling production"
  else if deployment = Value.str "aws" then "Define infrastructure as code (CDK or Terraform); deploy to a staging environment first; verify health checks pass before routing production traffic"
  else if deployment = Value.str "gcp" then "Build and push the container image to Artifact Registry; deploy to Cloud Run with the correct service account and Secret Manager bindings; verify the health endpoint before going live"
  else "Configure the deployment pipeline; deploy to a staging environment first and verify all critical paths before production"

/-- The ordered step list assembled by `buildSequence` (before the
1-based numbering and join).  `answers.deployment && answers.deployment
!== 'local-only'` is a truthiness test plus a strict inequality. -/
def buildSequenceSteps (a : Answers) (guardrailTier : Nat) : List String :=
  let stack := resolveStack a
  let hasDB := stack.any (fun t => ["postgres", "mysql", "mongodb"].contains t)
  let hasPrisma   := stack.contains "prisma"
  let hasSupabase := stack.contains "supabase"
  [buildScaffoldStep a.projectType stack a.deployment,
   buildStructureStep a.projectType stack] ++
  (if hasDB || hasPrisma || hasSupabase then [buildDataLayerStep a stack] else []) ++
  buildMiddleSteps a.projectType a stack ++
  (if 1 ≤ guardrailTier then [buildSecurityStep a guardrailTier] else []) ++
  [testingStep] ++
  (if jsTruthy a.deployment = true ∧ a.deployment ≠ Value.str "local-only"
     then [buildDeployStep a.deployment stack] else [])

/-- `buildSequence(answers, result)` — numbered and newline-joined. -/
def buildSequence (a : Answers) (guardrailTier : Nat) : String :=
  String.intercalate "\n"
    ((buildSequenceSteps a guardrailTier).mapIdx
      (fun i step => toString (i + 1) ++ ". " ++ step))

/-! ## decisionTree.js (result shape) and configAssembler.js sections -/

/-- `OUTPUT_FILES` — output filename by LLM target. -/
def OUTPUT_FILES : String → Option String
  | "claude-code" => some "CLAUDE.md"
  | "gemini-cli"  => some "GEMINI.txt"
  | "cursor"      => some ".cursorrules"
  | "windsurf"    => some ".windsurfrules"
  | "other"       => some "PROJECT_CONFIG.md"
  | _             => none

/-- `BEHAVIORAL_DIRECTIVES` — universal, always emitted. -/
def BEHAVIORAL_DIRECTIVES : List String :=
  [ "Write production-ready code by default — no placeholders, no TODO stubs unless explicitly asked",
    "Prefer editing existing files over creating new ones; avoid file bloat",
    "Read files before modifying them; understand existing patterns before suggesting changes",
    "Use the minimum complexity that satisfies the requirement — resist over-engineering",
    "All clickable elements need cursor-pointer and visible hover feedback",
    "Never skip error handling at system boundaries (user input, external APIs, file I/O)",
    "Ask before taking irreversible or high-blast-radius actions (deleting files, force pushing)" ]

/-- The `meta` summary counts of the decision-tree result. -/
structure ResultMeta where
  skillCount      : Nat
  coreSkills      : Nat
  stackSkills     : Nat
  guardrailSkills : Nat
  deploySkills    : Nat
  guardrailTier   : Nat
deriving DecidableEq, Repr

/-- The `DecisionTreeResult` object returned by `runDecisionTree`. -/
structure DecisionTreeResult where
  role                  : String
  roleComponents        : RoleComponents
  skills                : List String
  skillsByTrack         : SkillGroups
  guardrailTier         : Nat
  guardrailLabel        : String
  guardrailColor        : String
  guardrailInstructions : List String
  guardrailByTier       : List (List String)
  behavioralDirectives  : List String
  outputFile            : String
  resolvedStack         : List String
  meta                  : ResultMeta
deriving DecidableEq, Repr

/-- `runDecisionTree` — guardrails first, then role, skills, output
file, resolved stack, bundled into the result object. -/
def runDecisionTree (a : Answers) : Except String DecisionTreeResult :=
  let guardrails := determineGuardrails a
  match buildRole a with
  | .error e => .error e
  | .ok role =>
    match buildRoleComponents a with
    | .error e => .error e
    | .ok roleComponents =>
      match selectSkills a guardrails.tier with
      | .error e => .error e
      | .ok skills =>
        match selectSkillsByTrack a guardrails.tier with
        | .error e => .error e
        | .ok skillsByTrack =>
          .ok { role                  := role
                roleComponents        := roleComponents
                skills                := skills
                skillsByTrack         := skillsByTrack
                guardrailTier         := guardrails.tier
                guardrailLabel        := guardrails.label
                guardrailColor        := guardrails.color
                guardrailInstructions := guardrails.instructions
                guardrailByTier       := guardrails.byTier
                behavioralDirectives  := BEHAVIORAL_DIRECTIVES
                outputFile            := (OUTPUT_FILES (jsKeyStr a.llmTarget)).getD "PROJECT_CONFIG.md"
                resolvedStack         := resolveStack a
                meta := { skillCount      := skills.length
                          coreSkills      := skillsByTrack.core.length
                          stackSkills     := skillsByTrack.stack.length
                          guardrailSkills := skillsByTrack.guardrail.length
                          deploySkills    := skillsByTrack.deployment.length
                          guardrailTier   := guardrails.tier } }

/-- `sectionRole`. -/
def sectionRole (result : DecisionTreeResult) : String :=
  "## Role\n\n" ++ result.role

/-- `sectionProjectContext` — throws only if a truthy non-string
description is `.trim()`ed. -/
def sectionProjectContext (a : Answers) : Except String String :=
  let typeLabel   := (PROJECT_TYPE_LABELS (jsKeyStr a.projectType)).getD "Software Project"
  let deployLabel := (DEPLOYMENT_LABELS (jsKeyStr a.deployment)).getD ""
  match
    (if jsTruthy a.projectDescription = true then
        match a.projectDescription with
        | .str s => Except.ok s.trim
        | _      => Except.error "TypeError: answers.projectDescription.trim is not a function"
      else Except.ok "_No description provided._") with
  | .error e => .error e
  | .ok descLine =>
      .ok (String.intercalate "\n"
        (["## Project Context", "", descLine, "", "- **Type:** " ++ typeLabel] ++
         (if deployLabel ≠ "" then ["- **Deployment:** " ++ deployLabel] else [])))

/-- `sectionTechStack`. -/
def sectionTechStack (a : Answers) (result : DecisionTreeResult) : String :=
  if result.resolvedStack = [] then "## Tech Stack\n\n_Stack to be determined._"
  else
    let stackLines := result.resolvedStack.map (fun t => "- " ++ ((STACK_LABELS t).getD t))
    let recommended :=
      if a.stackApproach = Value.str "recommend" then
        "\n\n> Stack was auto-selected by ConfigKit based on project type."
      else ""
    "## Tech Stack\n\n" ++ String.intercalate "\n" stackLines ++ recommended

/-- `sectionBehavioralDirectives`. -/
def sectionBehavioralDirectives (result : DecisionTreeResult) : String :=
  "## Behavioral Directives\n\n" ++
    String.intercalate "\n" (result.behavioralDirectives.map (fun d => "- " ++ d))

/-- `sectionGuardrails`. -/
def sectionGuardrails (result : DecisionTreeResult) : String :=
  "## Security Guardrails (Tier " ++ toString result.guardrailTier ++ ": " ++
    result.guardrailLabel ++ ")" ++ "\n\n" ++
    String.intercalate "\n" (result.guardrailInstructions.map (fun i => "- " ++ i))

/-- `sectionSkillPacks`. -/
def sectionSkillPacks (result : DecisionTreeResult) : String :=
  if result.skills = [] then "## Skill Packs Loaded\n\n_No skill packs selected._"
  else
    "## Skill Packs Loaded\n\n" ++
      String.intercalate "\n" (result.skills.map (fun s => "- skills/" ++ s ++ "/SKILL.md"))

/-- `sectionBuildSequence`. -/
def sectionBuildSequence (a : Answers) (result : DecisionTreeResult) : String :=
  "## Build Sequence\n\nApproach this project in the following order:\n\n" ++
    buildSequence a result.guardrailTier

/-- The optional AI override record (`{ role, context, directives,
buildSeq }`); each key is either a string or absent. -/
structure AiSections where
  role       : Option String := none
  context    : Option String := none
  directives : Option String := none
  buildSeq   : Option String := none
deriving DecidableEq, Repr

/-- JavaScript truthiness of `aiSections?.key`: the chain is falsy when
the record is absent, the key is absent, or the string is empty. -/
def optTruthy : Option String → Bool
  | some s => !(s == "")
  | none   => false

/-- The generated header comment of `assembleConfig` (the `new
Date().toISOString().split('T')[0]` value is the impure input, passed
here as `today`). -/
def assembleHeader (today : String) (result : DecisionTreeResult) (aiPresent : Bool) : String :=
  "<!-- Generated by ConfigKit -->\n<!-- " ++ today ++ " | " ++ result.outputFile ++
    " | Guardrail Tier " ++ toString result.guardrailTier ++ ": " ++ result.guardrailLabel ++
    (if aiPresent then " | AI-Enhanced" else "") ++ " -->"

/-- The `sections` array of `assembleConfig`, before the divider join. -/
def assembleConfigParts (today : String) (a : Answers) (result : DecisionTreeResult)
    (aiSections : Option AiSections) : Except String (List String) :=
  let roleSection :=
    if optTruthy (aiSections.bind AiSections.role) = true then
      "## Role\n\n" ++ (aiSections.bind AiSections.role).getD ""
    else sectionRole result
  let directivesSection :=
    if optTruthy (aiSections.bind AiSections.directives) = true then
      "## Behavioral Directives\n\n" ++ (aiSections.bind AiSections.directives).getD ""
    else sectionBehavioralDirectives result
  let buildSeqSection :=
    if optTruthy (aiSections.bind AiSections.buildSeq) = true then
      "## Build Sequence\n\n" ++ (aiSections.bind AiSections.buildSeq).getD ""
    else sectionBuildSequence a result
  match
    (if optTruthy (aiSections.bind AiSections.context) = true then
        Except.ok ("## Project Context\n\n" ++ (aiSections.bind AiSections.context).getD "")
      else sectionProjectContext a) with
  | .error e => .error e
  | .ok contextSection =>
      .ok [ assembleHeader today result aiSections.isSome,
            roleSection,
            contextSection,
            sectionTechStack a result,
            directivesSection,
            sectionGuardrails result,
            sectionSkillPacks result,
            buildSeqSection ]

/-- `assembleConfig` — the full document: sections joined with the
fixed divider. -/
def assembleConfig (today : String) (a : Answers) (result : DecisionTreeResult)
    (aiSections : Option AiSections) : Except String String :=
  match assembleConfigParts today a result aiSections with
  | .error e   => .error e
  | .ok parts  => .ok (String.intercalate "\n\n---\n\n" parts)

/-! ## Shared concrete inputs and helper lemmas -/

/-- All four security flags answered `"no"`. -/
def ansAllNo : Answers :=
  { hasAuth := .str "no", storesData := .str "no",
    hasPayments := .str "no", hasSensitiveData := .str "no" }

/-- Only `hasPayments` answered `"yes"`. -/
def ansPayOnly : Answers :=
  { hasAuth := .str "no", storesData := .str "no",
    hasPayments := .str "yes", hasSensitiveData := .str "no" }

/-- Only `hasAuth` answered `"yes"`. -/
def ansAuthOnly : Answers :=
  { hasAuth := .str "yes", storesData := .str "no",
    hasPayments := .str "no", hasSensitiveData := .str "no" }

lemma flattenTakeMono {α : Type} (l : List (List α)) {i j : Nat} (h : i ≤ j) :
    (l.take i).flatten <+: (l.take j).flatten := by
  refine ⟨((l.take j).drop i).flatten, ?_⟩
  have h1 : l.take i = (l.take j).take i := by
    rw [List.take_take, Nat.min_eq_left h]
  rw [h1, ← List.flatten_append, List.take_append_drop]

lemma countSecurityYes_eq (a : Answers) :
    countSecurityYes a =
      (if a.hasAuth = Value.str "yes" then 1 else 0) +
      (if a.storesData = Value.str "yes" then 1 else 0) +
      (if a.hasPayments = Value.str "yes" then 1 else 0) +
      (if a.hasSensitiveData = Value.str "yes" then 1 else 0) := by
  by_cases h1 : a.hasAuth = Value.str "yes" <;>
    by_cases h2 : a.storesData = Value.str "yes" <;>
      by_cases h3 : a.hasPayments = Value.str "yes" <;>
        by_cases h4 : a.hasSensitiveData = Value.str "yes" <;>
          simp [countSecurityYes, h1, h2, h3, h4]

/-! ## Claim theorems -/

/-- C1: for every answers map, `determineTier` returns 3 if
`hasPayments == "yes"` or `hasSensitiveData == "yes"` (checked first,
independent of the count); otherwise 2 if at least two of the four
security flags are `"yes"`; otherwise 1 if at least one is; otherwise
0. -/
theorem determineTier_policy (a : Answers) :
    ((a.hasPayments = Value.str "yes" ∨ a.hasSensitiveData = Value.str "yes") →
      determineTier a = 3) ∧
    (¬(a.hasPayments = Value.str "yes" ∨ a.hasSensitiveData = Value.str "yes") →
      2 ≤ countSecurityYes a → determineTier a = 2) ∧
    (¬(a.hasPayments = Value.str "yes" ∨ a.hasSensitiveData = Value.str "yes") →
      countSecurityYes a = 1 → determineTier a = 1) ∧
    (¬(a.hasPayments = Value.str "yes" ∨ a.hasSensitiveData = Value.str "yes") →
      countSecurityYes a = 0 → determineTier a = 0) := by
  refine ⟨fun h => ?_, fun h h2 => ?_, fun h h1 => ?_, fun h h0 => ?_⟩
  · unfold determineTier
    rw [if_pos h]
  · unfold determineTier
    rw [if_neg h, if_pos h2]
  · unfold determineTier
    rw [if_neg h, if_neg (by omega), if_pos (by omega)]
  · unfold determineTier
    rw [if_neg h, if_neg (by omega), if_neg (by omega)]

/-- Witness for C1: a payments-only answer set is tier 3, an all-no
answer set is tier 0. -/
theorem determineTier_policy_witness :
    determineTier ansPayOnly = 3 ∧ determineTier ansAllNo = 0 :=
  ⟨(determineTier_policy ansPayOnly).1 (Or.inl rfl),
   (determineTier_policy ansAllNo).2.2.2 (by decide) (by decide)⟩

/-- C2: for every answers map, `determineGuardrails` returns the
concatenation, in order, of the fixed instruction buckets `0..tier`, and
`byTier` is the list of those buckets; consequently for two answer maps
with tiers `t1 < t2` the first instruction list is a prefix of the
second. -/
theorem guardrails_additive (a1 a2 : Answers) :
    (determineGuardrails a1).instructions =
      (TIER_INSTRUCTIONS.take (determineTier a1 + 1)).flatten ∧
    (determineGuardrails a1).byTier = TIER_INSTRUCTIONS.take (determineTier a1 + 1) ∧
    (determineTier a1 < determineTier a2 →
      (determineGuardrails a1).instructions <+: (determineGuardrails a2).instructions) :=
  ⟨rfl, rfl, fun h => flattenTakeMono TIER_INSTRUCTIONS (by omega)⟩

/-- Witness for C2: the tier-0 instruction list is a prefix of the
tier-3 instruction list. -/
theorem guardrails_additive_witness :
    determineTier ansAllNo < determineTier ansPayOnly ∧
    (determineGuardrails ansAllNo).instructions <+:
      (determineGuardrails ansPayOnly).instructions :=
  ⟨by decide, (guardrails_additive ansAllNo ansPayOnly).2.2 (by decide)⟩

/-- C10: the guardrail engine only tests strict string equality with
`"yes"`: any two answer maps whose four flags agree on being `"yes"`
produce identical `determineTier` and `determineGuardrails` results, and
replacing a flag by any non-`"yes"` value (a different string, a number,
a boolean, an absent key, ...) is the same as pre-defaulting it to
`"no"`. -/
theorem security_flags_strict_yes (a b : Answers) (v : Value) :
    (((a.hasAuth = Value.str "yes") ↔ (b.hasAuth = Value.str "yes")) →
     ((a.storesData = Value.str "yes") ↔ (b.storesData = Value.str "yes")) →
     ((a.hasPayments = Value.str "yes") ↔ (b.hasPayments = Value.str "yes")) →
     ((a.hasSensitiveData = Value.str "yes") ↔ (b.hasSensitiveData = Value.str "yes")) →
     determineTier a = determineTier b ∧
       determineGuardrails a = determineGuardrails b) ∧
    (v ≠ Value.str "yes" →
      determineGuardrails { a with hasAuth := v } =
        determineGuardrails { a with hasAuth := Value.str "no" } ∧
      determineGuardrails { a with storesData := v } =
        determineGuardrails { a with storesData := Value.str "no" } ∧
      determineGuardrails { a with hasPayments := v } =
        determineGuardrails { a with hasPayments := Value.str "no" } ∧
      determineGuardrails { a with hasSensitiveData := v } =
        determineGuardrails { a with hasSensitiveData := Value.str "no" }) := by
  have main : ∀ x y : Answers,
      ((x.hasAuth = Value.str "yes") ↔ (y.hasAuth = Value.str "yes")) →
      ((x.storesData = Value.str "yes") ↔ (y.storesData = Value.str "yes")) →
      ((x.hasPayments = Value.str "yes") ↔ (y.hasPayments = Value.str "yes")) →
      ((x.hasSensitiveData = Value.str "yes") ↔ (y.hasSensitiveData = Value.str "yes")) →
      determineTier x = determineTier y ∧
        determineGuardrails x = determineGuardrails y := by
    intro x y h1 h2 h3 h4
    have hc : countSecurityYes x = countSecurityYes y := by
      rw [countSecurityYes_eq, countSecurityYes_eq]
      simp only [h1, h2, h3, h4]
    have ht : determineTier x = determineTier y := by
      unfold determineTier
      rw [hc]
      exact if_congr (or_congr h3 h4) rfl rfl
    exact ⟨ht, by unfold determineGuardrails; rw [ht, hc]⟩
  refine ⟨main a b, fun hv => ?_⟩
  have hno : ∀ w : Value, w = v ∨ w = Value.str "no" → ¬(w = Value.str "yes") := by
    rintro w (rfl | rfl)
    · exact hv
    · decide
  refine ⟨?_, ?_, ?_, ?_⟩ <;>
    exact (main _ _
      (by simp [hno _ (Or.inl rfl), hno _ (Or.inr rfl)])
      (by simp [hno _ (Or.inl rfl), hno _ (Or.inr rfl)])
      (by simp [hno _ (Or.inl rfl), hno _ (Or.inr rfl)])
      (by simp [hno _ (Or.inl rfl), hno _ (Or.inr rfl)])).2

/-- Witness for C10: a numeric `1`, the string `"Yes"` and an absent
flag all behave exactly like `"no"`. -/
theorem security_flags_strict_yes_witness :
    determineGuardrails { ansAllNo with hasAuth := Value.num 1 } =
      determineGuardrails { ansAllNo with hasAuth := Value.str "no" } ∧
    determineGuardrails { ansAllNo with hasPayments := Value.str "Yes" } =
      determineGuardrails { ansAllNo with hasPayments := Value.str "no" } ∧
    determineGuardrails { ansAllNo with hasSensitiveData := Value.undef } =
      determineGuardrails { ansAllNo with hasSensitiveData := Value.str "no" } :=
  ⟨((security_flags_strict_yes ansAllNo ansAllNo (Value.num 1)).2 (by decide)).1,
   ((security_flags_strict_yes ansAllNo ansAllNo (Value.str "Yes")).2 (by decide)).2.2.1,
   ((security_flags_strict_yes ansAllNo ansAllNo Value.undef).2 (by decide)).2.2.2⟩

lemma mem_addSkill_left {x n : String} {l : List String} (h : x ∈ l) :
    x ∈ addSkill l n := by
  unfold addSkill
  split
  · exact h
  · exact List.mem_append_left _ h

lemma mem_addSkill_self (l : List String) (n : String) : n ∈ addSkill l n := by
  unfold addSkill
  split
  next h => exact h
  next h => exact List.mem_append_right _ (List.mem_singleton.mpr rfl)

lemma mem_addSkills_left {x : String} {l : List String} (names : List String)
    (h : x ∈ l) : x ∈ addSkills l names := by
  induction names generalizing l with
  | nil => exact h
  | cons n rest ih => exact ih (mem_addSkill_left h)

lemma mem_addSkills_right {x : String} {l : List String} {names : List String}
    (h : x ∈ names) : x ∈ addSkills l names := by
  induction names generalizing l with
  | nil => cases h
  | cons n rest ih =>
      rcases List.mem_cons.mp h with rfl | h'
      · exact mem_addSkills_left rest (mem_addSkill_self l x)
      · exact ih h'

/-- A recommend-mode answer set with a user stack that must be ignored. -/
def ansRec : Answers :=
  { projectType := .str "api-backend", stackApproach := .str "recommend",
    stackTech := .arr ["java"] }

/-- C5: for every answers map with `stackApproach == "recommend"`,
`resolveStack` returns the curated list for the project type regardless
of any `stackTech` value (single-element default `["nodejs"]` when the
type is unrecognized); otherwise it returns `stackTech` as given when it
is a list and `[]` when absent or not a list. -/
theorem resolveStack_spec (a : Answers) (v : Value) :
    (a.stackApproach = Value.str "recommend" →
      resolveStack a = (RECOMMENDED_STACKS (jsKeyStr a.projectType)).getD ["nodejs"] ∧
      resolveStack { a with stackTech := v } = resolveStack a ∧
      (RECOMMENDED_STACKS (jsKeyStr a.projectType) = none → resolveStack a = ["nodejs"])) ∧
    (a.stackApproach ≠ Value.str "recommend" →
      (∀ l, a.stackTech = Value.arr l → resolveStack a = l) ∧
      ((∀ l, a.stackTech ≠ Value.arr l) → resolveStack a = [])) := by
  constructor
  · intro h
    refine ⟨by rw [resolveStack, if_pos h], by simp [resolveStack, h], fun hn => ?_⟩
    rw [resolveStack, if_pos h, hn]
    rfl
  · intro h
    constructor
    · intro l hl
      rw [resolveStack, if_neg h, hl]
    · intro hl
      rcases hs : a.stackTech with s | l | n | b | _
      · simp [resolveStack, h, hs]
      · exact absurd hs (hl l)
      · simp [resolveStack, h, hs]
      · simp [resolveStack, h, hs]
      · simp [resolveStack, h, hs]

/-- Witness for C5: in recommend mode the curated api-backend stack is
returned and a supplied `stackTech` is ignored. -/
theorem resolveStack_spec_witness :
    resolveStack ansRec = ["nodejs", "postgres"] ∧
    resolveStack { ansRec with stackTech := Value.str "oops" } = resolveStack ansRec :=
  ⟨(((resolveStack_spec ansRec (Value.str "oops")).1 rfl).1).trans (by decide),
   ((resolveStack_spec ansRec (Value.str "oops")).1 rfl).2.1⟩

/-- C4: the guardrail track of `selectSkills` (factored here as
`guardrailSkills`) adds skills conditioned on both tier and flags: at
tier ≥ 1 the universal validation skill; at tier ≥ 2 the auth skill only
if `hasAuth == "yes"` and the CORS skill only if the project type is in
the fixed web-facing subset; at tier ≥ 3 the secrets skill
unconditionally, the payment-security skill only if
`hasPayments == "yes"`, and the encryption skill only if
`hasSensitiveData == "yes"`; the unconditional additions reach the final
flat list. -/
theorem guardrailSkills_conditions (a : Answers) (tier : Nat) :
    ("validating-user-input" ∈ guardrailSkills a tier ↔ 1 ≤ tier) ∧
    ("implementing-auth-patterns" ∈ guardrailSkills a tier ↔
      (2 ≤ tier ∧ a.hasAuth = Value.str "yes")) ∧
    ("managing-cors-policy" ∈ guardrailSkills a tier ↔
      (2 ≤ tier ∧ webFacingIncludes a.projectType = true)) ∧
    ("managing-secrets-and-env" ∈ guardrailSkills a tier ↔ 3 ≤ tier) ∧
    ("handling-payment-security" ∈ guardrailSkills a tier ↔
      (3 ≤ tier ∧ a.hasPayments = Value.str "yes")) ∧
    ("data-encryption-patterns" ∈ guardrailSkills a tier ↔
      (3 ≤ tier ∧ a.hasSensitiveData = Value.str "yes")) ∧
    (∀ skills, selectSkills a tier = Except.ok skills → 1 ≤ tier →
      "validating-user-input" ∈ skills ∧
      (3 ≤ tier → "managing-secrets-and-env" ∈ skills)) := by
  have hmem : ∀ x skills, selectSkills a tier = Except.ok skills →
      x ∈ guardrailSkills a tier → x ∈ skills := by
    intro x skills hok hx
    unfold selectSkills at hok
    rcases hd : selectFromDescription a.projectDescription with e | descSkills <;>
      rw [hd] at hok
    · cases hok
    · cases hok
      exact mem_addSkills_left _ (mem_addSkills_left _ (mem_addSkills_right hx))
  have hconds :
      ("validating-user-input" ∈ guardrailSkills a tier ↔ 1 ≤ tier) ∧
      ("implementing-auth-patterns" ∈ guardrailSkills a tier ↔
        (2 ≤ tier ∧ a.hasAuth = Value.str "yes")) ∧
      ("managing-cors-policy" ∈ guardrailSkills a tier ↔
        (2 ≤ tier ∧ webFacingIncludes a.projectType = true)) ∧
      ("managing-secrets-and-env" ∈ guardrailSkills a tier ↔ 3 ≤ tier) ∧
      ("handling-payment-security" ∈ guardrailSkills a tier ↔
        (3 ≤ tier ∧ a.hasPayments = Value.str "yes")) ∧
      ("data-encryption-patterns" ∈ guardrailSkills a tier ↔
        (3 ≤ tier ∧ a.hasSensitiveData = Value.str "yes")) := by
    by_cases h1 : 1 ≤ tier <;> by_cases h2 : 2 ≤ tier <;> by_cases h3 : 3 ≤ tier <;>
      by_cases ha : a.hasAuth = Value.str "yes" <;>
        by_cases hw : webFacingIncludes a.projectType = true <;>
          by_cases hp : a.hasPayments = Value.str "yes" <;>
            by_cases hsd : a.hasSensitiveData = Value.str "yes" <;>
              simp [guardrailSkills, h1, h2, h3, ha, hw, hp, hsd]
  refine ⟨hconds.1, hconds.2.1, hconds.2.2.1, hconds.2.2.2.1, hconds.2.2.2.2.1,
    hconds.2.2.2.2.2, fun skills hok h1 => ?_⟩
  exact ⟨hmem _ _ hok (hconds.1.mpr h1),
    fun h3 => hmem _ _ hok (hconds.2.2.2.1.mpr h3)⟩

/-- Witness for C4: with only payments `"yes"` (tier 3) the final flat
list contains the validation and secrets skills. -/
theorem guardrailSkills_conditions_witness :
    "validating-user-input" ∈
      ["validating-user-input", "managing-secrets-and-env", "handling-payment-security"] ∧
    "managing-secrets-and-env" ∈
      ["validating-user-input", "managing-secrets-and-env", "handling-payment-security"] :=
  ⟨((guardrailSkills_conditions ansPayOnly 3).2.2.2.2.2.2 _ (by rfl) (by omega)).1,
   ((guardrailSkills_conditions ansPayOnly 3).2.2.2.2.2.2 _ (by rfl) (by omega)).2 (by omega)⟩


lemma addSkill_nodup {l : List String} (n : String) (h : l.Nodup) :
    (addSkill l n).Nodup := by
  unfold addSkill
  split
  · exact h
  next hn => simp [List.nodup_append, h, hn]

lemma addSkills_nodup (names : List String) {l : List String} (h : l.Nodup) :
    (addSkills l names).Nodup := by
  induction names generalizing l with
  | nil => exact h
  | cons n rest ih => exact ih (addSkill_nodup n h)

lemma stackFold_nodup (techs : List String) {l : List String} (h : l.Nodup) :
    (techs.foldl (fun acc tech => addSkills acc ((STACK_SKILLS tech).getD [])) l).Nodup := by
  induction techs generalizing l with
  | nil => exact h
  | cons t rest ih => exact ih (addSkills_nodup _ h)

lemma selectSkills_nodup {a : Answers} {tier : Nat} {skills : List String}
    (h : selectSkills a tier = Except.ok skills) : skills.Nodup := by
  unfold selectSkills at h
  rcases hd : selectFromDescription a.projectDescription with e | descSkills <;> rw [hd] at h
  · cases h
  · cases h
    exact addSkills_nodup _ (addSkills_nodup _ (addSkills_nodup _
      (stackFold_nodup _ (addSkills_nodup _ List.nodup_nil))))

lemma trackOf_mem (n : String) :
    trackOf n = "core" ∨ trackOf n = "stack" ∨ trackOf n = "guardrail" ∨
      trackOf n = "deployment" := by
  unfold trackOf SKILL_METADATA
  split <;> simp

lemma groupByTrack_go (l : List String) (g : SkillGroups) :
    l.foldl
      (fun g name =>
        match trackOf name with
        | "stack"      => { g with stack := g.stack ++ [name] }
        | "guardrail"  => { g with guardrail := g.guardrail ++ [name] }
        | "deployment" => { g with deployment := g.deployment ++ [name] }
        | _            => { g with core := g.core ++ [name] }) g =
    { core       := g.core ++ l.filter (fun m => trackOf m == "core"),
      stack      := g.stack ++ l.filter (fun m => trackOf m == "stack"),
      guardrail  := g.guardrail ++ l.filter (fun m => trackOf m == "guardrail"),
      deployment := g.deployment ++ l.filter (fun m => trackOf m == "deployment") } := by
  induction l generalizing g with
  | nil => simp
  | cons n rest ih =>
      rw [List.foldl_cons, ih]
      rcases trackOf_mem n with h | h | h | h <;>
        simp [h, List.filter_cons]

lemma groupByTrack_eq (l : List String) :
    groupByTrack l =
      { core       := l.filter (fun m => trackOf m == "core"),
        stack      := l.filter (fun m => trackOf m == "stack"),
        guardrail  := l.filter (fun m => trackOf m == "guardrail"),
        deployment := l.filter (fun m => trackOf m == "deployment") } := by
  unfold groupByTrack
  rw [groupByTrack_go]
  simp

lemma count_filter_true {p : String → Bool} {n : String} (h : p n = true) :
    ∀ l : List String, (l.filter p).count n = l.count n := by
  intro l
  induction l with
  | nil => rfl
  | cons x xs ih =>
      by_cases hx : p x = true
      · simp [List.filter_cons, hx, List.count_cons, ih]
      · have hxn : (x == n) = false := by
          by_contra hc
          exact hx (by rw [eq_of_beq (eq_true_of_ne_false hc)]; exact h)
        simp [List.filter_cons, hx, List.count_cons, ih, hxn]

lemma count_filter_false {p : String → Bool} {n : String} (h : p n = false)
    (l : List String) : (l.filter p).count n = 0 := by
  rw [List.count_eq_zero]
  intro hm
  rcases List.mem_filter.mp hm with ⟨-, hp⟩
  rw [h] at hp
  cases hp

/-- C3: for every answers map and tier, the flat list returned by
`selectSkills` has no duplicate identifiers, and `selectSkillsByTrack`
is the display partition of exactly that flat list: each group is the
order-preserving filter of the flat list by its track, every identifier
has its single flat occurrence distributed into exactly one group, and
identifiers absent from the metadata table land in the `core` group. -/
theorem selectSkills_nodup_partition (a : Answers) (tier : Nat) (skills : List String)
    (h : selectSkills a tier = Except.ok skills) :
    skills.Nodup ∧
    selectSkillsByTrack a tier = Except.ok
      { core       := skills.filter (fun m => trackOf m == "core"),
        stack      := skills.filter (fun m => trackOf m == "stack"),
        guardrail  := skills.filter (fun m => trackOf m == "guardrail"),
        deployment := skills.filter (fun m => trackOf m == "deployment") } ∧
    (∀ n, (skills.filter (fun m => trackOf m == "core")).count n +
          (skills.filter (fun m => trackOf m == "stack")).count n +
          (skills.filter (fun m => trackOf m == "guardrail")).count n +
          (skills.filter (fun m => trackOf m == "deployment")).count n =
        skills.count n) ∧
    (∀ n, n ∈ skills → skills.count n = 1) ∧
    (∀ n, n ∈ skills → SKILL_METADATA n = none →
      n ∈ skills.filter (fun m => trackOf m == "core")) := by
  have hd := selectSkills_nodup h
  refine ⟨hd, ?_, ?_, ?_, ?_⟩
  · simp only [selectSkillsByTrack, h, groupByTrack_eq]
  · intro n
    rcases trackOf_mem n with ht | ht | ht | ht
    · rw [count_filter_true (by simp [ht]), count_filter_false (by simp [ht]),
        count_filter_false (by simp [ht]), count_filter_false (by simp [ht])]
      omega
    · rw [count_filter_false (by simp [ht]), count_filter_true (by simp [ht]),
        count_filter_false (by simp [ht]), count_filter_false (by simp [ht])]
      omega
    · rw [count_filter_false (by simp [ht]), count_filter_false (by simp [ht]),
        count_filter_true (by simp [ht]), count_filter_false (by simp [ht])]
      omega
    · rw [count_filter_false (by simp [ht]), count_filter_false (by simp [ht]),
        count_filter_false (by simp [ht]), count_filter_true (by simp [ht])]
      omega
  · exact fun n hn => List.count_eq_one_of_mem hd hn
  · intro n hn hmeta
    exact List.mem_filter.mpr ⟨hn, by simp [trackOf, hmeta]⟩

/-- The scenario answer set of the spec's first test scenario. -/
def aC7 : Answers :=
  { projectType := .str "api-backend", stackApproach := .str "choose",
    stackTech := .arr ["nodejs", "postgres"], hasAuth := .str "yes",
    storesData := .str "no", hasPayments := .str "no",
    hasSensitiveData := .str "no", deployment := .str "aws" }

/-- The flat skill list the scenario produces. -/
def c7Skills : List String :=
  ["designing-rest-apis", "request-validation", "api-error-handling",
   "nodejs-async-patterns", "express-middleware", "database-query-patterns",
   "migration-management", "validating-user-input", "deploying-to-aws"]

/-- Witness for C3: the scenario selection is duplicate-free and its
track grouping partitions it. -/
theorem selectSkills_nodup_partition_witness :
    c7Skills.Nodup ∧
    selectSkillsByTrack aC7 1 = Except.ok
      { core       := c7Skills.filter (fun m => trackOf m == "core"),
        stack      := c7Skills.filter (fun m => trackOf m == "stack"),
        guardrail  := c7Skills.filter (fun m => trackOf m == "guardrail"),
        deployment := c7Skills.filter (fun m => trackOf m == "deployment") } :=
  ⟨(selectSkills_nodup_partition aC7 1 c7Skills (by rfl)).1,
   (selectSkills_nodup_partition aC7 1 c7Skills (by rfl)).2.1⟩

set_option maxRecDepth 40000 in
/-- C7: for the api-backend / choose / [nodejs, postgres] / hasAuth-yes /
aws scenario the tier is 1, the flat skill list is exactly the expected
nine-element list (so it starts with it), and the build sequence contains
a security-hardening step whose text has no CORS clause and no
encryption clause. -/
theorem scenario_api_backend :
    determineTier aC7 = 1 ∧
    selectSkills aC7 (determineTier aC7) = Except.ok c7Skills ∧
    buildSecurityStep aC7 1 =
      "Security hardening pass: verify input validation on all user-facing fields, auth middleware protecting all authenticated routes; run a dependency audit before deploying" ∧
    buildSecurityStep aC7 1 ∈ buildSequenceSteps aC7 1 ∧
    strContains (buildSecurityStep aC7 1) "CORS" = false ∧
    strContains (buildSecurityStep aC7 1) "encryption" = false := by
  refine ⟨by decide, by rfl, by rfl, by decide, by decide, by decide⟩

lemma buildDeployStep_cases (d : Value) (s : List String) :
    buildDeployStep d s = buildDeployStep (Value.str "vercel") s ∨
    buildDeployStep d s = buildDeployStep (Value.str "aws") s ∨
    buildDeployStep d s = buildDeployStep (Value.str "gcp") s ∨
    buildDeployStep d s = buildDeployStep Value.undef s := by
  by_cases h1 : d = Value.str "vercel"
  · exact Or.inl (by rw [h1])
  · by_cases h2 : d = Value.str "aws"
    · exact Or.inr (Or.inl (by rw [h2]))
    · by_cases h3 : d = Value.str "gcp"
      · exact Or.inr (Or.inr (Or.inl (by rw [h3])))
      · refine Or.inr (Or.inr (Or.inr ?_))
        simp [buildDeployStep, h1, h2, h3]

lemma buildSequenceSteps_shape (a : Answers) (tier : Nat) :
    buildSequenceSteps a tier =
      ([buildScaffoldStep a.projectType (resolveStack a) a.deployment,
        buildStructureStep a.projectType (resolveStack a)] ++
       (if ((resolveStack a).any (fun t => ["postgres", "mysql", "mongodb"].contains t) ||
            (resolveStack a).contains "prisma" || (resolveStack a).contains "supabase")
          then [buildDataLayerStep a (resolveStack a)] else []) ++
       buildMiddleSteps a.projectType a (resolveStack a) ++
       (if 1 ≤ tier then [buildSecurityStep a tier] else [])) ++
      ([testingStep] ++
       (if jsTruthy a.deployment = true ∧ a.deployment ≠ Value.str "local-only"
          then [buildDeployStep a.deployment (resolveStack a)] else [])) := by
  unfold buildSequenceSteps
  simp [List.append_assoc]

lemma buildSequenceSteps_getLast (a : Answers) (tier : Nat) :
    (buildSequenceSteps a tier).getLast? =
      (if jsTruthy a.deployment = true ∧ a.deployment ≠ Value.str "local-only"
        then some (buildDeployStep a.deployment (resolveStack a))
        else some testingStep) := by
  rw [buildSequenceSteps_shape,
    List.getLast?_append_of_ne_nil _ (by split <;> simp)]
  split
  · rfl
  · rfl

/-- The entirely unanswered questionnaire. -/
def ansBlank : Answers := {}

/-- C9 (amended): the generated build sequence ends with a deployment
step if and only if the deployment answer is truthy (present and
non-empty) and not `"local-only"`; when present, the step is in the
sequence and its content branches on the target: dedicated texts for
vercel, aws and gcp, a generic pipeline text for any other target. -/
theorem deploy_step_iff (a : Answers) (tier : Nat) :
    ((buildSequenceSteps a tier).getLast? =
        some (buildDeployStep a.deployment (resolveStack a)) ↔
      (jsTruthy a.deployment = true ∧ a.deployment ≠ Value.str "local-only")) ∧
    ((jsTruthy a.deployment = true ∧ a.deployment ≠ Value.str "local-only") →
      buildDeployStep a.deployment (resolveStack a) ∈ buildSequenceSteps a tier) ∧
    (a.deployment = Value.str "vercel" →
      buildDeployStep a.deployment (resolveStack a) =
        "Connect the repository to Vercel; configure environment variables in the Vercel dashboard; verify the Preview deployment for the main branch before enabling production") ∧
    (a.deployment = Value.str "aws" →
      buildDeployStep a.deployment (resolveStack a) =
        "Define infrastructure as code (CDK or Terraform); deploy to a staging environment first; verify health checks pass before routing production traffic") ∧
    (a.deployment = Value.str "gcp" →
      buildDeployStep a.deployment (resolveStack a) =
        "Build and push the container image to Artifact Registry; deploy to Cloud Run with the correct service account and Secret Manager bindings; verify the health endpoint before going live") ∧
    ((a.deployment ≠ Value.str "vercel" ∧ a.deployment ≠ Value.str "aws" ∧
        a.deployment ≠ Value.str "gcp") →
      buildDeployStep a.deployment (resolveStack a) =
        "Configure the deployment pipeline; deploy to a staging environment first and verify all critical paths before production") := by
  refine ⟨⟨fun hl => ?_, fun h => ?_⟩, fun h => ?_, fun h => ?_, fun h => ?_, fun h => ?_,
    fun h => ?_⟩
  · by_cases hc : jsTruthy a.deployment = true ∧ a.deployment ≠ Value.str "local-only"
    · exact hc
    · exfalso
      rw [buildSequenceSteps_getLast, if_neg hc] at hl
      have ht : testingStep = buildDeployStep a.deployment (resolveStack a) :=
        Option.some.inj hl
      rcases buildDeployStep_cases a.deployment (resolveStack a) with h | h | h | h <;>
        rw [h] at ht <;> simp [buildDeployStep, testingStep] at ht
  · rw [buildSequenceSteps_getLast, if_pos h]
  · rw [buildSequenceSteps_shape]
    refine List.mem_append_right _ ?_
    rw [if_pos h]
    simp
  · simp [buildDeployStep, h]
  · simp [buildDeployStep, h]
  · simp [buildDeployStep, h]
  · rcases h with ⟨h1, h2, h3⟩
    simp [buildDeployStep, h1, h2, h3]

set_option maxRecDepth 40000 in
/-- C9 counterexample: with the deployment answer absent (which is not
the string `"local-only"`), the generated build sequence contains no
deployment step at all — no element equals any of the four possible
deployment-step texts — refuting the claimed `if and only if the
deployment answer is not "local-only"`. -/
theorem deployStep_counterexample :
    ansBlank.deployment ≠ Value.str "local-only" ∧
    ((buildSequenceSteps ansBlank (determineTier ansBlank)).all
      (fun s => !(s == buildDeployStep (Value.str "vercel") (resolveStack ansBlank)) &&
                !(s == buildDeployStep (Value.str "aws") (resolveStack ansBlank)) &&
                !(s == buildDeployStep (Value.str "gcp") (resolveStack ansBlank)) &&
                !(s == buildDeployStep ansBlank.deployment (resolveStack ansBlank)))) =
      true := by
  exact ⟨by decide, by decide⟩

/-- Witness for C9: in the aws scenario the build sequence ends with
the dedicated aws deployment step. -/
theorem deploy_step_iff_witness :
    (buildSequenceSteps aC7 1).getLast? =
      some (buildDeployStep aC7.deployment (resolveStack aC7)) ∧
    buildDeployStep aC7.deployment (resolveStack aC7) =
      "Define infrastructure as code (CDK or Terraform); deploy to a staging environment first; verify health checks pass before routing production traffic" :=
  ⟨(deploy_step_iff aC7 1).1.mpr ⟨by decide, by decide⟩,
   (deploy_step_iff aC7 1).2.2.2.1 rfl⟩

/-- The malformed answer set: a list where free text is expected. -/
def ansListDesc : Answers := { projectDescription := .arr ["x"] }

/-- C8 counterexample: on an answers map whose `projectDescription` is
a list (an allowed AnswerSet value shape), the core derivation throws a
`TypeError` (`[...].trim` is not a function), refuting `never throws for
every answers map including malformed ones`. -/
theorem runDecisionTree_throws_counterexample :
    runDecisionTree ansListDesc =
      Except.error "TypeError: answers.projectDescription.trim is not a function" := by
  rfl

/-- C8 (amended): for every answers map whose `projectDescription` is a
string or absent — all other answers completely arbitrary — the core
derivation (`buildRole`, `selectSkills` at every tier, and the full
`runDecisionTree`) never throws: every lookup on an unknown or missing
value degrades to its defined fallback. -/
theorem core_never_throws (a : Answers)
    (h : (∃ s, a.projectDescription = Value.str s) ∨ a.projectDescription = Value.undef) :
    (buildRole a).isOk = true ∧
    (∀ tier, (selectSkills a tier).isOk = true) ∧
    (runDecisionTree a).isOk = true := by
  have hdesc : ∃ dl, selectFromDescription a.projectDescription = Except.ok dl := by
    rcases h with ⟨s, hs⟩ | hs
    · rw [hs]
      unfold selectFromDescription
      split
      · exact ⟨_, rfl⟩
      · exact ⟨_, rfl⟩
    · rw [hs]
      exact ⟨[], rfl⟩
  have hrole : ∃ r, buildRole a = Except.ok r := by
    unfold buildRole
    rcases h with ⟨s, hs⟩ | hs
    · rw [hs]
      dsimp only
      split
      · exact ⟨_, rfl⟩
      · exact ⟨_, rfl⟩
    · rw [hs]
      exact ⟨_, rfl⟩
  have hcomp : ∃ rc, buildRoleComponents a = Except.ok rc := by
    rcases hrole with ⟨r, hr⟩
    unfold buildRoleComponents
    rw [hr]
    exact ⟨_, rfl⟩
  have hsk : ∀ tier, ∃ l, selectSkills a tier = Except.ok l := by
    intro tier
    rcases hdesc with ⟨dl, hdl⟩
    unfold selectSkills
    rw [hdl]
    exact ⟨_, rfl⟩
  have hbt : ∀ tier, ∃ g, selectSkillsByTrack a tier = Except.ok g := by
    intro tier
    rcases hsk tier with ⟨l, hl⟩
    unfold selectSkillsByTrack
    rw [hl]
    exact ⟨_, rfl⟩
  rcases hrole with ⟨r, hr⟩
  refine ⟨by rw [hr]; rfl, fun tier => ?_, ?_⟩
  · rcases hsk tier with ⟨l, hl⟩
    rw [hl]
    rfl
  · rcases hcomp with ⟨rc, hrc⟩
    rcases hsk (determineGuardrails a).tier with ⟨l, hl⟩
    rcases hbt (determineGuardrails a).tier with ⟨g, hg⟩
    unfold runDecisionTree
    dsimp only
    rw [hr, hrc, hl, hg]
    rfl

/-- Witness for C8: the scenario answer set derives without error. -/
theorem core_never_throws_witness :
    (runDecisionTree aC7).isOk = true ∧ (buildRole aC7).isOk = true :=
  ⟨(core_never_throws aC7 (Or.inr rfl)).2.2,
   (core_never_throws aC7 (Or.inr rfl)).1⟩

lemma assembleConfigParts_eq (today : String) (a : Answers) (result : DecisionTreeResult)
    (ai : Option AiSections) (ctx : String)
    (hctx : sectionProjectContext a = Except.ok ctx) :
    assembleConfigParts today a result ai = Except.ok
      [ assembleHeader today result ai.isSome,
        (if optTruthy (ai.bind AiSections.role) = true then
           "## Role\n\n" ++ (ai.bind AiSections.role).getD ""
         else sectionRole result),
        (if optTruthy (ai.bind AiSections.context) = true then
           "## Project Context\n\n" ++ (ai.bind AiSections.context).getD ""
         else ctx),
        sectionTechStack a result,
        (if optTruthy (ai.bind AiSections.directives) = true then
           "## Behavioral Directives\n\n" ++ (ai.bind AiSections.directives).getD ""
         else sectionBehavioralDirectives result),
        sectionGuardrails result,
        sectionSkillPacks result,
        (if optTruthy (ai.bind AiSections.buildSeq) = true then
           "## Build Sequence\n\n" ++ (ai.bind AiSections.buildSeq).getD ""
         else sectionBuildSequence a result) ] := by
  unfold assembleConfigParts
  by_cases hc : optTruthy (ai.bind AiSections.context) = true
  · rw [if_pos hc, if_pos hc]
  · rw [if_neg hc, if_neg hc, hctx]

/-- C6: when `assembleConfig` is given an override record with only the
`role` key set to a non-empty string, the assembled document's Role
section is the override text verbatim under the `## Role` heading, while
every other section — in particular Tech Stack, Security Guardrails and
Skill Packs — is the deterministic template output for the same inputs
with no overrides; and for an arbitrary override record the Tech Stack,
Guardrails and Skill Packs sections are always the deterministic ones,
never replaced by any override key. -/
theorem assembleConfig_override_role (today : String) (a : Answers)
    (result : DecisionTreeResult) (ov : String) (ctx : String)
    (hov : ov ≠ "") (hctx : sectionProjectContext a = Except.ok ctx) :
    assembleConfigParts today a result (some { role := some ov }) =
      Except.ok
        [ assembleHeader today result true,
          "## Role\n\n" ++ ov,
          ctx,
          sectionTechStack a result,
          sectionBehavioralDirectives result,
          sectionGuardrails result,
          sectionSkillPacks result,
          sectionBuildSequence a result ] ∧
    assembleConfigParts today a result none =
      Except.ok
        [ assembleHeader today result false,
          sectionRole result,
          ctx,
          sectionTechStack a result,
          sectionBehavioralDirectives result,
          sectionGuardrails result,
          sectionSkillPacks result,
          sectionBuildSequence a result ] ∧
    (∀ ai : Option AiSections, ∃ parts,
      assembleConfigParts today a result ai = Except.ok parts ∧
      parts.length = 8 ∧
      parts[3]? = some (sectionTechStack a result) ∧
      parts[5]? = some (sectionGuardrails result) ∧
      parts[6]? = some (sectionSkillPacks result)) := by
  have hb : (ov == "") = false := beq_eq_false_iff_ne.mpr hov
  refine ⟨?_, ?_, fun ai => ⟨_, assembleConfigParts_eq today a result ai ctx hctx,
    rfl, rfl, rfl, rfl⟩⟩
  · rw [assembleConfigParts_eq today a result _ ctx hctx]
    simp [optTruthy, hb]
  · rw [assembleConfigParts_eq today a result none ctx hctx]
    simp [optTruthy]

/-- A small concrete decision-tree result for the override witness. -/
def resW : DecisionTreeResult :=
  { role := "You are a Senior Software Engineer.",
    roleComponents :=
      ⟨"Senior Software Engineer", [], [], "You are a Senior Software Engineer."⟩,
    skills := [], skillsByTrack := ⟨[], [], [], []⟩,
    guardrailTier := 0, guardrailLabel := "BASELINE", guardrailColor := "comment",
    guardrailInstructions := [], guardrailByTier := [],
    behavioralDirectives := [], outputFile := "CLAUDE.md", resolvedStack := [],
    meta := ⟨0, 0, 0, 0, 0, 0⟩ }

/-- Witness for C6: a concrete role-only override on the blank answer
set. -/
theorem assembleConfig_override_role_witness :
    assembleConfigParts "2026-01-01" ansBlank resW (some { role := some "OVERRIDE" }) =
      Except.ok
        [ assembleHeader "2026-01-01" resW true,
          "## Role\n\n" ++ "OVERRIDE",
          "## Project Context\n\n_No description provided._\n\n- **Type:** Software Project",
          sectionTechStack ansBlank resW,
          sectionBehavioralDirectives resW,
          sectionGuardrails resW,
          sectionSkillPacks resW,
          sectionBuildSequence ansBlank resW ] :=
  (assembleConfig_override_role "2026-01-01" ansBlank resW "OVERRIDE"
    "## Project Context\n\n_No description provided._\n\n- **Type:** Software Project"
    (by decide) (by rfl)).1
